import Mathlib

/-!
# Verification of the OpenOTP exporter probe cycle

A shallow embedding of `crooks/openotp_exporter` (files `main.go` and the
collector initialisation).  The probe cycle is modelled as a pure function
from the prior metrics-registry state, the probe target, the outcome of the
batched JSON-RPC transport call and the measured wall-clock duration to the
updated registry plus the HTTP response.  Gauge values are modelled as
rationals (every value the exporter writes — 0/1 booleans, integer user
counts, integer epoch seconds, decimal license figures — is exactly
representable in `float64`, so `Rat` is a faithful carrier for them).
A runtime panic (a nil-pointer dereference) is modelled by `Option.none`:
no response is rendered and no further gauge is written.
-/

namespace OpenOTP

/-- Embedding of `licenseDetailsFields` in `main.go`: the decoded subset of the
`Get_License_Details` reply.  The nested `Products.OpenOTP.MaximumUsers`
string is flattened into the single field `maximumUsers`. -/
structure licenseDetailsFields where
  customerID : String
  errorMessage : String
  instanceID : String
  maximumUsers : String
  validFrom : String
  validTo : String
deriving DecidableEq

/-- Embedding of `serverStatusFields` in `main.go`: the decoded `Server_status` reply,
with the six nested `Servers` booleans flattened. -/
structure serverStatusFields where
  enabled : Bool
  ldap : Bool
  mail : Bool
  pki : Bool
  proxy : Bool
  session : Bool
  sql : Bool
  status : Bool
  version : String
deriving DecidableEq

/-- Embedding of `boolToFloat` in `main.go`: booleans become 1 or 0 for Prometheus. -/
def boolToFloat (b : Bool) : Rat :=
  if !b then 0 else 1

/-! ## Date/time parsing (`strToEpoch` and Go `time.Parse`)

`strToEpoch` calls Go's `time.Parse` with the layout `"2006-01-02 15:04:05"`.
That layout carries no time-zone information, so `time.Parse` interprets the
string as UTC.  The embedding reproduces the strict fixed-width parse (two
digit month/day/hour/minute/second, four digit year, exact separators, range
checks including month-aware day bounds) and the proleptic-Gregorian epoch
arithmetic of `Time.Unix`. -/

/-- Numeric value of an ASCII decimal digit. -/
def digitVal (c : Char) : Nat := c.toNat - 48

/-- Gregorian leap-year rule. -/
def isLeapYear (y : Int) : Bool :=
  (y % 4 = 0 && y % 100 ≠ 0) || y % 400 = 0

/-- Number of days in month `m` (1–12) of year `y`. -/
def daysInMonth (y : Int) (m : Nat) : Nat :=
  match m with
  | 1 => 31
  | 2 => if isLeapYear y then 29 else 28
  | 3 => 31
  | 4 => 30
  | 5 => 31
  | 6 => 30
  | 7 => 31
  | 8 => 31
  | 9 => 30
  | 10 => 31
  | 11 => 30
  | 12 => 31
  | _ => 0

/-- Days from the civil epoch 1970-01-01 to year/month/day in the proleptic
Gregorian calendar (the arithmetic underlying Go's `Time.Unix`). -/
def daysFromCivil (y : Int) (m d : Int) : Int :=
  let y1 : Int := y - (if m ≤ 2 then 1 else 0)
  let era : Int := (if 0 ≤ y1 then y1 else y1 - 399) / 400
  let yoe : Int := y1 - era * 400
  let doy : Int := (153 * (m + (if 2 < m then -3 else 9)) + 2) / 5 + d - 1
  let doe : Int := yoe * 365 + yoe / 4 - yoe / 100 + doy
  era * 146097 + doe - 719468

/-- Strict parse of `"YYYY-MM-DD HH:MM:SS"` to Unix epoch seconds (UTC),
mirroring Go's `time.Parse` with layout `"2006-01-02 15:04:05"` followed by
`Time.Unix`: `none` on any shape or range violation. -/
def parseDateTime (s : String) : Option Int :=
  match s.data with
  | [y1, y2, y3, y4, a1, m1, m2, a2, d1, d2, a3, h1, h2, a4, n1, n2, a5, c1, c2] =>
    if y1.isDigit && y2.isDigit && y3.isDigit && y4.isDigit &&
        m1.isDigit && m2.isDigit && d1.isDigit && d2.isDigit &&
        h1.isDigit && h2.isDigit && n1.isDigit && n2.isDigit &&
        c1.isDigit && c2.isDigit &&
        a1 = '-' && a2 = '-' && a3 = ' ' && a4 = ':' && a5 = ':' then
      let y : Nat := digitVal y1 * 1000 + digitVal y2 * 100 + digitVal y3 * 10 + digitVal y4
      let mo : Nat := digitVal m1 * 10 + digitVal m2
      let d : Nat := digitVal d1 * 10 + digitVal d2
      let h : Nat := digitVal h1 * 10 + digitVal h2
      let mi : Nat := digitVal n1 * 10 + digitVal n2
      let se : Nat := digitVal c1 * 10 + digitVal c2
      if 1 ≤ mo && mo ≤ 12 && 1 ≤ d && d ≤ daysInMonth y mo &&
          h ≤ 23 && mi ≤ 59 && se ≤ 59 then
        some (daysFromCivil y mo d * 86400 + h * 3600 + mi * 60 + se)
      else
        none
    else
      none
  | _ => none

/-- Embedding of `strToEpoch` in `main.go`: convert OpenOTP's date/time string to Unix
epoch seconds; an unparseable string degrades to 0 (with a logged warning). -/
def strToEpoch (s : String) : Rat :=
  match parseDateTime s with
  | none => 0
  | some t => (t : Rat)

/-- Modelled from the spec's words for comparison (claim C7): the date string
read as wall-clock time in a local zone lying `off` seconds east of UTC.
The code itself (`strToEpoch`, Go `time.Parse` with a zone-less layout)
interprets the string as UTC, i.e. as `strToEpochLocal 0`. -/
def strToEpochLocal (off : Int) (s : String) : Rat :=
  match parseDateTime s with
  | none => 0
  | some t => ((t - off : Int) : Rat)

/-! ## `strconv.ParseFloat` (decimal subset)

The maximum-users string is parsed with `strconv.ParseFloat(s, 64)`.  The
embedding covers the plain decimal literal syntax (optional sign, digits with
at most one point, optional decimal exponent); hex floats, infinities, NaN
and digit-group underscores are omitted — the probed API transmits a plain
integer count, and every claim-relevant value is exactly representable. -/

/-- Leading sign of a numeric literal. -/
def splitSign : List Char → Int × List Char
  | '+' :: rest => (1, rest)
  | '-' :: rest => (-1, rest)
  | l => (1, l)

/-- Longest leading run of decimal digits. -/
def takeDigits : List Char → List Char × List Char
  | [] => ([], [])
  | c :: rest =>
    if c.isDigit then
      let p := takeDigits rest
      (c :: p.1, p.2)
    else
      ([], c :: rest)

/-- Value of a digit string. -/
def digitsToNat (l : List Char) : Nat :=
  l.foldl (fun a c => a * 10 + digitVal c) 0

/-- Decimal `strconv.ParseFloat`: `none` models a parse error.  The value of
`±d₁…dₙ.f₁…fₖe±x` is `±(d₁…dₙf₁…fₖ) · 10^(±x−k)`, computed over `Int` when
the scientific exponent is nonnegative and by exact rational division
otherwise. -/
def parseFloatQ (s : String) : Option Rat :=
  let p0 := splitSign s.data
  let p1 := takeDigits p0.2
  let p2 : List Char × List Char :=
    match p1.2 with
    | '.' :: r => takeDigits r
    | _ => ([], p1.2)
  if p1.1.isEmpty && p2.1.isEmpty then
    none
  else
    let mant : Int := p0.1 * (digitsToNat (p1.1 ++ p2.1) : Int)
    let decExp : Option Int :=
      match p2.2 with
      | [] => some 0
      | e :: r =>
        if e = 'e' || e = 'E' then
          let q0 := splitSign r
          let q1 := takeDigits q0.2
          if q1.1.isEmpty || !q1.2.isEmpty then
            none
          else
            some (q0.1 * (digitsToNat q1.1 : Int))
        else
          none
    match decExp with
    | none => none
    | some ex =>
      let sciExp : Int := ex - (p2.1.length : Int)
      if 0 ≤ sciExp then
        some ((mant * 10 ^ sciExp.toNat : Int) : Rat)
      else
        some ((mant : Rat) / ((10 ^ (0 - sciExp).toNat : Nat) : Rat))

/-! ## JSON-RPC transport and decoders

A reply's `Result` field is classified by the JSON shape the decoders react
to: `nullResult` is the JSON literal `null` (Go's `json.Unmarshal` of `null`
into a `**T` target sets the pointer to nil and reports no error);
`intResult` is an integer JSON number (the shape `GetInt` accepts);
`licenseResult` / `statusResult` are objects unmarshalling into the
respective structs; `corruptResult` is any payload on which the structured
decode in question fails (e.g. a string where an object or integer is
required). -/

/-- The JSON `result` member of one RPC reply, as seen by the decoders. -/
inductive RPCResult where
  | nullResult : RPCResult
  | intResult (n : Int) : RPCResult
  | licenseResult (l : licenseDetailsFields) : RPCResult
  | statusResult (s : serverStatusFields) : RPCResult
  | corruptResult : RPCResult
deriving DecidableEq

/-- One reply of the batch: an optional RPC-level error plus the result. -/
structure RPCResponse where
  hasRPCError : Bool
  result : RPCResult
deriving DecidableEq

/-- Embedding of `jsonrpc.RPCResponses`. -/
abbrev RPCResponses := List RPCResponse

/-- Embedding of `RPCResponses.HasError` of the jsonrpc library: does any reply in the
batch carry an RPC-level error? -/
def RPCResponses.hasError (rs : RPCResponses) : Bool :=
  rs.any (·.hasRPCError)

/-- Outcome of `rpcClient.CallBatch`: either the network call errors
outright (no usable replies), or it yields a list of replies. -/
inductive NetworkOutcome where
  | netError : NetworkOutcome
  | replies (rs : RPCResponses) : NetworkOutcome
deriving DecidableEq

/-- The error value produced by `apiBatchRequests`. -/
inductive BatchError where
  | networkError : BatchError
  | rpcError : BatchError
  | lengthError (got : Nat) : BatchError
deriving DecidableEq

/-- Embedding of `apiBatchRequests` in `main.go`: perform the three batched RPC calls and
return the replies plus an error.  A network failure returns immediately;
otherwise an RPC-level error in any reply sets the error, and a batch whose
length is not 3 (over)writes the error with the length complaint. -/
def apiBatchRequests (net : NetworkOutcome) : RPCResponses × Option BatchError :=
  match net with
  | .netError => ([], some .networkError)
  | .replies rs =>
    let e1 : Option BatchError := if RPCResponses.hasError rs then some .rpcError else none
    let e2 : Option BatchError := if rs.length ≠ 3 then some (.lengthError rs.length) else e1
    (rs, e2)

/-- Embedding of `apiActiveUsers` in `main.go`: `response.GetInt()` converted to a float;
the second component records whether an error was returned (in which case
the value 0 accompanies it, unused by the caller). -/
def apiActiveUsers (r : RPCResponse) : Rat × Bool :=
  match r.result with
  | .intResult n => ((n : Rat), false)
  | _ => (0, true)

/-- Embedding of `apiGetLicenseDetails` in `main.go`: `response.GetObject(&lic)` into a
`*licenseDetailsFields`.  A JSON `null` result leaves the pointer nil and
reports no error (Go `json.Unmarshal` null-into-pointer semantics). -/
def apiGetLicenseDetails (r : RPCResponse) : Option licenseDetailsFields × Bool :=
  match r.result with
  | .licenseResult l => (some l, false)
  | .nullResult => (none, false)
  | _ => (none, true)

/-- Embedding of `apiServerStatus` in `main.go`: `response.GetObject(&status)` into a
`*serverStatusFields`, with the same null-result behaviour. -/
def apiServerStatus (r : RPCResponse) : Option serverStatusFields × Bool :=
  match r.result with
  | .statusResult s => (some s, false)
  | .nullResult => (none, false)
  | _ => (none, true)

/-! ## The metrics registry

`prometheusMetrics` of the collector file: two plain gauges for the probe
itself and the labelled gauge vectors.  An unset gauge (or an untouched
label combination of a vector) is `none`; `Set` overwrites with `some`. -/

/-- Semantics of `GaugeVec.WithLabelValues(l…).Set(v)`: overwrite the time series of one
label combination, leaving all others as they were. -/
def setVec {α : Type} [DecidableEq α] (g : α → Option Rat) (l : α) (v : Rat) :
    α → Option Rat :=
  fun x => if x = l then some v else g x

/-- The registry: scalar gauges and gauge vectors keyed by their label
values (`licenseMaxUsers`, `licenseValidFrom`, `licenseValidTo` by
(customer, license-instance); `serverEnabled`, `serverStatus` by version;
`serverServices` by service name). -/
structure prometheusMetrics where
  probeDuration : Option Rat
  probeSuccess : Option Rat
  licenseMaxUsers : String × String → Option Rat
  licenseValidFrom : String × String → Option Rat
  licenseValidTo : String × String → Option Rat
  usersActive : Option Rat
  serverEnabled : String → Option Rat
  serverStatus : String → Option Rat
  serverServices : String → Option Rat

/-- Embedding of `initCollectors`: every gauge starts unset (a Prometheus gauge vector
has no time series until `WithLabelValues` is first called; the plain gauges
are reported as 0 by the client library but no probe value has been written,
which is what matters to the claims about prior values). -/
def initCollectors : prometheusMetrics where
  probeDuration := none
  probeSuccess := none
  licenseMaxUsers := fun _ => none
  licenseValidFrom := fun _ => none
  licenseValidTo := fun _ => none
  usersActive := none
  serverEnabled := fun _ => none
  serverStatus := fun _ => none
  serverServices := fun _ => none

/-- The HTTP response of the probe endpoint: either the 400 error page or
the 200 metrics exposition of the (updated) registry. -/
inductive probeResponse where
  | badRequest (body : String) : probeResponse
  | metricsOutput (rendered : prometheusMetrics) : probeResponse

/-- HTTP status code of a probe response. -/
def probeResponse.statusCode : probeResponse → Nat
  | .badRequest _ => 400
  | .metricsOutput _ => 200

/-! ## The probe cycle (`probeHandler` of `main.go`)

The three decode blocks inside `if success == 1` are factored out one-to-one
(`decodeActiveUsers` = lines 150–156, `decodeLicense` = lines 157–170,
`decodeServerStatus` = lines 171–184).  `Option.none` models the nil-pointer
dereference panic that occurs when a decoder returns a nil entity with a nil
error and the handler reads its fields. -/

/-- Lines 150–156: set the active-user gauge unless the decode errored. -/
def decodeActiveUsers (m : prometheusMetrics) (r : RPCResponse) : prometheusMetrics :=
  match apiActiveUsers r with
  | (au, false) => { m with usersActive := some au }
  | (_, true) => m

/-- Lines 157–170: on decode success, set the maximum-users gauge when the
string parses and always set the two validity gauges; `none` is the panic on
`license.Products.…` when the returned entity pointer is nil. -/
def decodeLicense (m : prometheusMetrics) (r : RPCResponse) : Option prometheusMetrics :=
  match apiGetLicenseDetails r with
  | (_, true) => some m
  | (none, false) => none
  | (some license, false) =>
    let lbl := (license.customerID, license.instanceID)
    let m1 :=
      match parseFloatQ license.maximumUsers with
      | none => m
      | some mu => { m with licenseMaxUsers := setVec m.licenseMaxUsers lbl mu }
    let m2 := { m1 with licenseValidFrom := setVec m1.licenseValidFrom lbl (strToEpoch license.validFrom) }
    some { m2 with licenseValidTo := setVec m2.licenseValidTo lbl (strToEpoch license.validTo) }

/-- Lines 171–184: on decode success, write enabled/status (labelled by
version) and the six sub-service gauges, labelled `ldap`, `mail`, `pki`,
`proxy`, `session`, `sql`; `none` is the panic on `ss.Enabled` when the
returned entity pointer is nil. -/
def decodeServerStatus (m : prometheusMetrics) (r : RPCResponse) : Option prometheusMetrics :=
  match apiServerStatus r with
  | (_, true) => some m
  | (none, false) => none
  | (some ss, false) =>
    some { m with
      serverEnabled := setVec m.serverEnabled ss.version (boolToFloat ss.enabled)
      serverStatus := setVec m.serverStatus ss.version (boolToFloat ss.status)
      serverServices :=
        setVec (setVec (setVec (setVec (setVec (setVec m.serverServices
          "ldap" (boolToFloat ss.ldap))
          "mail" (boolToFloat ss.mail))
          "pki" (boolToFloat ss.pki))
          "proxy" (boolToFloat ss.proxy))
          "session" (boolToFloat ss.session))
          "sql" (boolToFloat ss.sql) }

/-- The `if success == 1` decode phase: the three entries are decoded
independently, in order.  A successful batch always has exactly three
replies (`apiBatchRequests` errors otherwise), so the fallback branch is
unreachable when this is called with a successful batch. -/
def probeDecodePhase (m : prometheusMetrics) (responses : RPCResponses) :
    Option prometheusMetrics :=
  match responses with
  | [r0, r1, r2] =>
    match decodeLicense (decodeActiveUsers m r0) r1 with
    | none => none
    | some m2 => decodeServerStatus m2 r2
  | _ => some m

/-- Embedding of `probeHandler` in `main.go`.  Inputs: prior registry state, the `target`
query parameter (`""` both for an absent and for an empty parameter, as
`url.Values.Get` returns), the transport outcome for this target, and the
measured probe duration in seconds.  Output: the updated registry and the
HTTP response, or `none` when the handler panics. -/
def probeHandler (m : prometheusMetrics) (target : String) (net : NetworkOutcome)
    (duration : Rat) : Option (prometheusMetrics × probeResponse) :=
  if target = "" then
    some (m, .badRequest "Target parameter missing or empty")
  else
    match apiBatchRequests net with
    | (responses, err) =>
      let success : Rat := if err.isSome then 0 else 1
      match (if success = 1 then probeDecodePhase m responses else some m) with
      | none => none
      | some mDec =>
        let mFin := { mDec with probeSuccess := some success, probeDuration := some duration }
        some (mFin, .metricsOutput mFin)

/-! ## Helper lemmas -/

/-- The active-user block never touches the server gauges. -/
theorem decodeActiveUsers_server_fields (m : prometheusMetrics) (r : RPCResponse) :
    (decodeActiveUsers m r).serverServices = m.serverServices ∧
    (decodeActiveUsers m r).serverEnabled = m.serverEnabled ∧
    (decodeActiveUsers m r).serverStatus = m.serverStatus := by
  unfold decodeActiveUsers
  rcases h : apiActiveUsers r with ⟨v, b⟩
  cases b <;> exact ⟨rfl, rfl, rfl⟩

/-- Unless the reply's result is the JSON literal `null`, the license block
returns (it does not panic) and never touches the server gauges. -/
theorem decodeLicense_some_of_not_null (m : prometheusMetrics) (r : RPCResponse)
    (h : r.result ≠ RPCResult.nullResult) :
    ∃ m2, decodeLicense m r = some m2 ∧
      m2.serverServices = m.serverServices ∧
      m2.serverEnabled = m.serverEnabled ∧
      m2.serverStatus = m.serverStatus := by
  rcases r with ⟨e, res⟩
  cases res with
  | nullResult => exact absurd rfl h
  | intResult n => exact ⟨m, rfl, rfl, rfl, rfl⟩
  | statusResult s => exact ⟨m, rfl, rfl, rfl, rfl⟩
  | corruptResult => exact ⟨m, rfl, rfl, rfl, rfl⟩
  | licenseResult l =>
    unfold decodeLicense
    cases hp : parseFloatQ l.maximumUsers <;>
      · dsimp only [apiGetLicenseDetails]
        rw [hp]
        exact ⟨_, rfl, rfl, rfl, rfl⟩

/-- On a successful transport call the handler runs the decode phase and
stamps success 1 and the duration. -/
theorem probeHandler_success_eq (m : prometheusMetrics) (target : String)
    (net : NetworkOutcome) (d : Rat) (rs : RPCResponses) (ht : target ≠ "")
    (hab : apiBatchRequests net = (rs, none)) :
    probeHandler m target net d =
      match probeDecodePhase m rs with
      | none => none
      | some mDec =>
        some ({ mDec with probeSuccess := some 1, probeDuration := some d },
          .metricsOutput { mDec with probeSuccess := some 1, probeDuration := some d }) := by
  unfold probeHandler
  rw [if_neg ht, hab]
  rfl

/-- On a failed transport call the handler skips decoding and stamps
success 0 and the duration. -/
theorem probeHandler_failure_eq (m : prometheusMetrics) (target : String)
    (net : NetworkOutcome) (d : Rat) (rs : RPCResponses) (e : BatchError)
    (ht : target ≠ "") (hab : apiBatchRequests net = (rs, some e)) :
    probeHandler m target net d =
      some ({ m with probeSuccess := some 0, probeDuration := some d },
        .metricsOutput { m with probeSuccess := some 0, probeDuration := some d }) := by
  unfold probeHandler
  rw [if_neg ht, hab]
  rfl

/-! ## Claims -/

/-- C1: when the transport batch succeeds, decoding of the three entities is
independent: with a corrupted license payload but valid active-user and
server-status payloads, the active-user gauge and all server-status gauges
are set, no license gauge is written that cycle, and probe-success is 1. -/
theorem probe_decode_independence
    (m : prometheusMetrics) (target : String) (n : Int) (st : serverStatusFields)
    (d : Rat) (ht : target ≠ "") :
    ∃ m', probeHandler m target
        (.replies [⟨false, .intResult n⟩, ⟨false, .corruptResult⟩,
          ⟨false, .statusResult st⟩]) d
        = some (m', .metricsOutput m') ∧
      m'.usersActive = some (n : Rat) ∧
      m'.probeSuccess = some 1 ∧
      m'.licenseMaxUsers = m.licenseMaxUsers ∧
      m'.licenseValidFrom = m.licenseValidFrom ∧
      m'.licenseValidTo = m.licenseValidTo ∧
      m'.serverEnabled st.version = some (boolToFloat st.enabled) ∧
      m'.serverStatus st.version = some (boolToFloat st.status) ∧
      m'.serverServices "ldap" = some (boolToFloat st.ldap) ∧
      m'.serverServices "mail" = some (boolToFloat st.mail) ∧
      m'.serverServices "pki" = some (boolToFloat st.pki) ∧
      m'.serverServices "proxy" = some (boolToFloat st.proxy) ∧
      m'.serverServices "session" = some (boolToFloat st.session) ∧
      m'.serverServices "sql" = some (boolToFloat st.sql) := by
  rw [probeHandler_success_eq m target _ d _ ht rfl]
  refine ⟨_, rfl, rfl, rfl, rfl, rfl, rfl, ?_, ?_, ?_, ?_, ?_, ?_, ?_, ?_⟩ <;>
    simp [decodeActiveUsers, apiActiveUsers, setVec]

/-- C1 witness: a concrete cycle with active-user count 5, a corrupted
license payload and a concrete server status. -/
theorem probe_decode_independence_witness :
    ∃ m', probeHandler initCollectors "t"
        (.replies [⟨false, .intResult 5⟩, ⟨false, .corruptResult⟩,
          ⟨false, .statusResult ⟨true, true, false, false, false, false, false, true, "1"⟩⟩]) 1
        = some (m', .metricsOutput m') ∧
      m'.usersActive = some 5 ∧
      m'.probeSuccess = some 1 ∧
      m'.licenseMaxUsers = initCollectors.licenseMaxUsers ∧
      m'.licenseValidFrom = initCollectors.licenseValidFrom ∧
      m'.licenseValidTo = initCollectors.licenseValidTo ∧
      m'.serverEnabled "1" = some 1 ∧
      m'.serverStatus "1" = some 1 ∧
      m'.serverServices "ldap" = some 1 ∧
      m'.serverServices "mail" = some 0 ∧
      m'.serverServices "pki" = some 0 ∧
      m'.serverServices "proxy" = some 0 ∧
      m'.serverServices "session" = some 0 ∧
      m'.serverServices "sql" = some 0 :=
  probe_decode_independence initCollectors "t" 5
    ⟨true, true, false, false, false, false, false, true, "1"⟩ 1 (by decide)

/-- C2: a failed transport call (network error, RPC-level reply error, or
wrong batch length) yields probe-success 0, probe-duration set to the
(positive) measured duration, and every other gauge unchanged. -/
theorem probe_transport_failure_frame
    (m : prometheusMetrics) (target : String) (net : NetworkOutcome) (d : Rat)
    (ht : target ≠ "") (hd : 0 < d)
    (herr : (apiBatchRequests net).2.isSome = true) :
    ∃ m', probeHandler m target net d = some (m', .metricsOutput m') ∧
      m'.probeSuccess = some 0 ∧
      m'.probeDuration = some d ∧ 0 < d ∧
      m'.usersActive = m.usersActive ∧
      m'.licenseMaxUsers = m.licenseMaxUsers ∧
      m'.licenseValidFrom = m.licenseValidFrom ∧
      m'.licenseValidTo = m.licenseValidTo ∧
      m'.serverEnabled = m.serverEnabled ∧
      m'.serverStatus = m.serverStatus ∧
      m'.serverServices = m.serverServices := by
  rcases hab : apiBatchRequests net with ⟨rs, err⟩
  rw [hab] at herr
  cases err with
  | none => simp at herr
  | some e =>
    rw [probeHandler_failure_eq m target net d rs e ht hab]
    exact ⟨_, rfl, rfl, rfl, hd, rfl, rfl, rfl, rfl, rfl, rfl, rfl⟩

/-- C2 witness: a network-level failure at duration 1. -/
theorem probe_transport_failure_frame_witness :
    ∃ m', probeHandler initCollectors "t" .netError 1 = some (m', .metricsOutput m') ∧
      m'.probeSuccess = some 0 ∧
      m'.probeDuration = some 1 ∧ (0 : Rat) < 1 ∧
      m'.usersActive = initCollectors.usersActive ∧
      m'.licenseMaxUsers = initCollectors.licenseMaxUsers ∧
      m'.licenseValidFrom = initCollectors.licenseValidFrom ∧
      m'.licenseValidTo = initCollectors.licenseValidTo ∧
      m'.serverEnabled = initCollectors.serverEnabled ∧
      m'.serverStatus = initCollectors.serverStatus ∧
      m'.serverServices = initCollectors.serverServices :=
  probe_transport_failure_frame initCollectors "t" .netError 1 (by decide)
    (by norm_num) rfl

/-- C3: `apiBatchRequests` errors iff the network call errors outright, some
reply carries an RPC-level error, or the batch length is not 3; and the
replies are returned exactly as received (never truncated or padded). -/
theorem apiBatchRequests_error_iff :
    (∀ net, (apiBatchRequests net).2 ≠ none ↔
        net = NetworkOutcome.netError ∨
          ∃ rs, net = NetworkOutcome.replies rs ∧
            (RPCResponses.hasError rs = true ∨ rs.length ≠ 3)) ∧
    ∀ rs, (apiBatchRequests (NetworkOutcome.replies rs)).1 = rs := by
  constructor
  · intro net
    cases net with
    | netError => simp [apiBatchRequests]
    | replies rs =>
      by_cases h1 : RPCResponses.hasError rs <;> by_cases h2 : rs.length = 3 <;>
        simp [apiBatchRequests, h1, h2]
  · intro rs
    by_cases h1 : RPCResponses.hasError rs <;> by_cases h2 : rs.length = 3 <;>
      simp [apiBatchRequests, h1, h2]

/-- C3 witness: the empty batch (length 0) is reported as an error. -/
theorem apiBatchRequests_error_iff_witness :
    (apiBatchRequests (NetworkOutcome.replies [])).2 ≠ none :=
  (apiBatchRequests_error_iff.1 (NetworkOutcome.replies [])).mpr
    (Or.inr ⟨[], rfl, Or.inr (by decide)⟩)

/-- C4: an absent or empty `target` parameter yields the 400 response with
body "Target parameter missing or empty", the registry is returned exactly
as it was (no write of any kind), and the result does not depend on the
transport at all (no transport call is made). -/
theorem probe_missing_target
    (m : prometheusMetrics) (net net' : NetworkOutcome) (d d' : Rat) :
    probeHandler m "" net d
        = some (m, .badRequest "Target parameter missing or empty") ∧
    probeHandler m "" net d = probeHandler m "" net' d' :=
  ⟨rfl, rfl⟩

/-- C5: whenever the transport batch succeeds, any rendered response carries
probe-success 1, no matter how many of the three decodes failed. -/
theorem probe_success_reflects_transport
    (m m' : prometheusMetrics) (target : String) (net : NetworkOutcome) (d : Rat)
    (r : probeResponse) (ht : target ≠ "")
    (hok : (apiBatchRequests net).2 = none)
    (hres : probeHandler m target net d = some (m', r)) :
    m'.probeSuccess = some 1 := by
  rcases hab : apiBatchRequests net with ⟨rs, err⟩
  rw [hab] at hok
  dsimp only at hok
  subst hok
  rw [probeHandler_success_eq m target net d rs ht hab] at hres
  cases hdec : probeDecodePhase m rs with
  | none => rw [hdec] at hres; cases hres
  | some mDec =>
    rw [hdec] at hres
    rw [Option.some.injEq, Prod.mk.injEq] at hres
    rw [← hres.1]

/-- C5 witness: a successful transport whose three decodes all fail still
renders probe-success 1. -/
theorem probe_success_reflects_transport_witness :
    ({ initCollectors with probeSuccess := some 1, probeDuration := some 1 }
        : prometheusMetrics).probeSuccess = some 1 :=
  probe_success_reflects_transport initCollectors
    { initCollectors with probeSuccess := some 1, probeDuration := some 1 } "t"
    (.replies [⟨false, .corruptResult⟩, ⟨false, .corruptResult⟩, ⟨false, .corruptResult⟩]) 1
    (.metricsOutput { initCollectors with probeSuccess := some 1, probeDuration := some 1 })
    (by decide) rfl rfl

/-- C6 counterexample: the sub-service gauges are labelled with the raw
service names, not the descriptive ones.  With `servers.ldap = true` and
`servers.sql = false` no "directory" or "database" series exists at all
(both read `none`); the 1 and the 0 land on the labels "ldap" and "sql". -/
theorem server_services_descriptive_labels_false :
    ∃ m', probeHandler initCollectors "t"
        (.replies [⟨false, .corruptResult⟩, ⟨false, .corruptResult⟩,
          ⟨false, .statusResult ⟨true, true, false, false, false, false, false, true, "1.0"⟩⟩]) 1
        = some (m', .metricsOutput m') ∧
      ¬ m'.serverServices "directory" = some 1 ∧
      ¬ m'.serverServices "database" = some 0 ∧
      m'.serverServices "directory" = none ∧
      m'.serverServices "database" = none ∧
      m'.serverServices "ldap" = some 1 ∧
      m'.serverServices "sql" = some 0 :=
  ⟨_, rfl, by decide, by decide, rfl, rfl, rfl, rfl⟩

/-- C6 (amended): every successfully decoded server-status payload writes
the six boolean sub-service flags as 1/0 gauges labelled by the raw service
names {ldap, mail, pki, proxy, session, sql} (in particular
`servers.ldap = true` gives the "ldap" gauge 1 and `servers.sql = false`
gives the "sql" gauge 0), and no other sub-service label is touched. -/
theorem probe_server_subservice_gauges
    (m : prometheusMetrics) (target : String) (r0 r1 : RPCResponse)
    (st : serverStatusFields) (d : Rat) (ht : target ≠ "")
    (h0 : r0.hasRPCError = false) (h1 : r1.hasRPCError = false)
    (hn : r1.result ≠ RPCResult.nullResult) :
    ∃ m', probeHandler m target (.replies [r0, r1, ⟨false, .statusResult st⟩]) d
        = some (m', .metricsOutput m') ∧
      m'.serverServices "ldap" = some (boolToFloat st.ldap) ∧
      m'.serverServices "mail" = some (boolToFloat st.mail) ∧
      m'.serverServices "pki" = some (boolToFloat st.pki) ∧
      m'.serverServices "proxy" = some (boolToFloat st.proxy) ∧
      m'.serverServices "session" = some (boolToFloat st.session) ∧
      m'.serverServices "sql" = some (boolToFloat st.sql) ∧
      ∀ lbl : String, lbl ∉ ["ldap", "mail", "pki", "proxy", "session", "sql"] →
        m'.serverServices lbl = m.serverServices lbl := by
  have hab : apiBatchRequests (.replies [r0, r1, ⟨false, .statusResult st⟩])
      = ([r0, r1, ⟨false, .statusResult st⟩], none) := by
    simp [apiBatchRequests, RPCResponses.hasError, h0, h1]
  rw [probeHandler_success_eq m target _ d _ ht hab]
  obtain ⟨hsv, hen, hst⟩ := decodeActiveUsers_server_fields m r0
  obtain ⟨m2, hm2, hsv2, hen2, hst2⟩ :=
    decodeLicense_some_of_not_null (decodeActiveUsers m r0) r1 hn
  have hph : probeDecodePhase m [r0, r1, ⟨false, .statusResult st⟩]
      = decodeServerStatus m2 ⟨false, .statusResult st⟩ := by
    have hred : probeDecodePhase m [r0, r1, ⟨false, .statusResult st⟩]
        = match decodeLicense (decodeActiveUsers m r0) r1 with
          | none => none
          | some mx => decodeServerStatus mx ⟨false, .statusResult st⟩ := rfl
    rw [hred, hm2]
  rw [hph]
  refine ⟨_, rfl, ?_, ?_, ?_, ?_, ?_, ?_, ?_⟩
  · simp [setVec]
  · simp [setVec]
  · simp [setVec]
  · simp [setVec]
  · simp [setVec]
  · simp [setVec]
  · intro lbl hl
    simp only [List.mem_cons, List.not_mem_nil, or_false, not_or] at hl
    obtain ⟨n1, n2, n3, n4, n5, n6⟩ := hl
    simp only [setVec, if_neg n6, if_neg n5, if_neg n4, if_neg n3, if_neg n2, if_neg n1]
    rw [hsv2, hsv]

/-- C6 witness: a concrete probe with ldap on and sql off. -/
theorem probe_server_subservice_gauges_witness :
    ∃ m', probeHandler initCollectors "t"
        (.replies [⟨false, .corruptResult⟩, ⟨false, .corruptResult⟩,
          ⟨false, .statusResult ⟨true, true, true, false, false, false, false, true, "2"⟩⟩]) 1
        = some (m', .metricsOutput m') ∧
      m'.serverServices "ldap" = some 1 ∧
      m'.serverServices "mail" = some 1 ∧
      m'.serverServices "pki" = some 0 ∧
      m'.serverServices "proxy" = some 0 ∧
      m'.serverServices "session" = some 0 ∧
      m'.serverServices "sql" = some 0 ∧
      ∀ lbl : String, lbl ∉ ["ldap", "mail", "pki", "proxy", "session", "sql"] →
        m'.serverServices lbl = initCollectors.serverServices lbl :=
  probe_server_subservice_gauges initCollectors "t" ⟨false, .corruptResult⟩
    ⟨false, .corruptResult⟩ ⟨true, true, true, false, false, false, false, true, "2"⟩ 1
    (by decide) rfl rfl (by decide)

/-- C7 counterexample: the validity strings are interpreted as UTC, not as
local time.  On a host one hour east of UTC (offset 3600 s), the local-time
reading of "2024-01-01 00:00:00" is 1704063600, but the gauge reads the UTC
epoch 1704067200. -/
theorem license_epoch_not_local_time :
    strToEpoch "2024-01-01 00:00:00" = 1704067200 ∧
    strToEpochLocal 3600 "2024-01-01 00:00:00" = 1704063600 ∧
    strToEpoch "2024-01-01 00:00:00" ≠ strToEpochLocal 3600 "2024-01-01 00:00:00" ∧
    ∃ m', probeHandler initCollectors "t"
        (.replies [⟨false, .corruptResult⟩,
          ⟨false, .licenseResult
            ⟨"c", "", "i", "150", "2024-01-01 00:00:00", "2025-01-01 00:00:00"⟩⟩,
          ⟨false, .corruptResult⟩]) 1
        = some (m', .metricsOutput m') ∧
      m'.licenseValidFrom ("c", "i") = some 1704067200 ∧
      m'.licenseValidFrom ("c", "i") ≠ some (strToEpochLocal 3600 "2024-01-01 00:00:00") :=
  ⟨rfl, rfl, by decide, _, rfl, rfl, by decide⟩

/-- C7 (amended): a license payload with maximum_users "150" and validity
window "2024-01-01 00:00:00" … "2025-01-01 00:00:00" that decodes
successfully sets the maximum-users gauge to exactly 150 and the
valid-from/valid-to gauges to the Unix epochs of those strings interpreted
as UTC (1704067200 and 1735689600). -/
theorem license_roundtrip_utc
    (m : prometheusMetrics) (target c i em : String) (d : Rat) (ht : target ≠ "") :
    ∃ m', probeHandler m target
        (.replies [⟨false, .corruptResult⟩,
          ⟨false, .licenseResult
            ⟨c, em, i, "150", "2024-01-01 00:00:00", "2025-01-01 00:00:00"⟩⟩,
          ⟨false, .corruptResult⟩]) d
        = some (m', .metricsOutput m') ∧
      m'.licenseMaxUsers (c, i) = some 150 ∧
      m'.licenseValidFrom (c, i) = some 1704067200 ∧
      m'.licenseValidTo (c, i) = some 1735689600 := by
  rw [probeHandler_success_eq m target _ d _ ht rfl]
  refine ⟨_, rfl, ?_, ?_, ?_⟩ <;>
    simp [setVec, show parseFloatQ "150" = some 150 from rfl,
      show strToEpoch "2024-01-01 00:00:00" = (1704067200 : Rat) from rfl,
      show strToEpoch "2025-01-01 00:00:00" = (1735689600 : Rat) from rfl]

/-- C7 witness: the concrete round-trip cycle. -/
theorem license_roundtrip_utc_witness :
    ∃ m', probeHandler initCollectors "t"
        (.replies [⟨false, .corruptResult⟩,
          ⟨false, .licenseResult
            ⟨"c", "", "i", "150", "2024-01-01 00:00:00", "2025-01-01 00:00:00"⟩⟩,
          ⟨false, .corruptResult⟩]) 1
        = some (m', .metricsOutput m') ∧
      m'.licenseMaxUsers ("c", "i") = some 150 ∧
      m'.licenseValidFrom ("c", "i") = some 1704067200 ∧
      m'.licenseValidTo ("c", "i") = some 1735689600 :=
  license_roundtrip_utc initCollectors "t" "c" "i" "" 1 (by decide)

/-- C8: field-level failures inside a successfully decoded license object
are independent: an unparseable valid-from string degrades only that gauge
to 0 while maximum-users and valid-to are still set; a failed maximum-users
parse skips only the maximum-users gauge while both validity gauges are
still written. -/
theorem license_field_failures_independent
    (m : prometheusMetrics) (l1 l2 : licenseDetailsFields) (mu : Rat)
    (hmu : parseFloatQ l1.maximumUsers = some mu)
    (hbad : parseDateTime l1.validFrom = none)
    (hmu2 : parseFloatQ l2.maximumUsers = none) :
    (∃ M, decodeLicense m ⟨false, .licenseResult l1⟩ = some M ∧
      M.licenseMaxUsers (l1.customerID, l1.instanceID) = some mu ∧
      M.licenseValidFrom (l1.customerID, l1.instanceID) = some 0 ∧
      M.licenseValidTo (l1.customerID, l1.instanceID) = some (strToEpoch l1.validTo)) ∧
    (∃ M, decodeLicense m ⟨false, .licenseResult l2⟩ = some M ∧
      M.licenseMaxUsers = m.licenseMaxUsers ∧
      M.licenseValidFrom (l2.customerID, l2.instanceID) = some (strToEpoch l2.validFrom) ∧
      M.licenseValidTo (l2.customerID, l2.instanceID) = some (strToEpoch l2.validTo)) := by
  constructor
  · unfold decodeLicense
    dsimp only [apiGetLicenseDetails]
    rw [hmu]
    refine ⟨_, rfl, ?_, ?_, ?_⟩
    · simp [setVec]
    · simp [setVec, strToEpoch, hbad]
    · simp [setVec]
  · unfold decodeLicense
    dsimp only [apiGetLicenseDetails]
    rw [hmu2]
    refine ⟨_, rfl, rfl, ?_, ?_⟩ <;> simp [setVec]

/-- C8 witness: "garbage" as valid-from degrades that gauge to 0 with
maximum-users "150" still set; maximum-users "x" fails alone with both
dates still written. -/
theorem license_field_failures_independent_witness :
    (∃ M, decodeLicense initCollectors
        ⟨false, .licenseResult ⟨"c", "", "i", "150", "garbage", "2025-01-01 00:00:00"⟩⟩
        = some M ∧
      M.licenseMaxUsers ("c", "i") = some 150 ∧
      M.licenseValidFrom ("c", "i") = some 0 ∧
      M.licenseValidTo ("c", "i") = some (strToEpoch "2025-01-01 00:00:00")) ∧
    (∃ M, decodeLicense initCollectors
        ⟨false, .licenseResult ⟨"c", "", "i", "x", "2024-01-01 00:00:00", "2025-01-01 00:00:00"⟩⟩
        = some M ∧
      M.licenseMaxUsers = initCollectors.licenseMaxUsers ∧
      M.licenseValidFrom ("c", "i") = some (strToEpoch "2024-01-01 00:00:00") ∧
      M.licenseValidTo ("c", "i") = some (strToEpoch "2025-01-01 00:00:00")) :=
  license_field_failures_independent initCollectors
    ⟨"c", "", "i", "150", "garbage", "2025-01-01 00:00:00"⟩
    ⟨"c", "", "i", "x", "2024-01-01 00:00:00", "2025-01-01 00:00:00"⟩ 150 rfl rfl rfl

/-- C9 counterexample: a reply whose JSON result is `null` in the license
slot makes the handler dereference a nil pointer: no response at all is
rendered for this non-empty-target request, so the endpoint does not always
answer 200. -/
theorem probe_null_result_no_response :
    ("t" : String) ≠ "" ∧
    probeHandler initCollectors "t"
      (.replies [⟨false, .corruptResult⟩, ⟨false, .nullResult⟩, ⟨false, .corruptResult⟩]) 1
      = none :=
  ⟨by decide, rfl⟩

/-- C9 (amended): every probe request that produces a response at all (i.e.
does not hit the null-payload nil-dereference) answers 200 with the metrics
exposition when the target is non-empty, and the missing/empty-target 400
with body "Target parameter missing or empty" is the only non-200
response. -/
theorem probe_response_status
    (m m' : prometheusMetrics) (target : String) (net : NetworkOutcome) (d : Rat)
    (r : probeResponse)
    (h : probeHandler m target net d = some (m', r)) :
    (target ≠ "" → r = probeResponse.metricsOutput m' ∧ r.statusCode = 200) ∧
    (target = "" →
      r = probeResponse.badRequest "Target parameter missing or empty" ∧
      r.statusCode = 400) := by
  by_cases ht : target = ""
  · refine ⟨fun hne => absurd ht hne, fun _ => ?_⟩
    subst ht
    unfold probeHandler at h
    rw [if_pos rfl, Option.some.injEq, Prod.mk.injEq] at h
    rw [← h.2]
    exact ⟨rfl, rfl⟩
  · refine ⟨fun _ => ?_, fun he => absurd he ht⟩
    rcases hab : apiBatchRequests net with ⟨rs, err⟩
    cases err with
    | some e =>
      rw [probeHandler_failure_eq m target net d rs e ht hab,
        Option.some.injEq, Prod.mk.injEq] at h
      rw [← h.2, ← h.1]
      exact ⟨rfl, rfl⟩
    | none =>
      rw [probeHandler_success_eq m target net d rs ht hab] at h
      cases hdec : probeDecodePhase m rs with
      | none => rw [hdec] at h; cases h
      | some mDec =>
        rw [hdec, Option.some.injEq, Prod.mk.injEq] at h
        rw [← h.2, ← h.1]
        exact ⟨rfl, rfl⟩

/-- C9 witness: a failed probe of a non-empty target still renders 200. -/
theorem probe_response_status_witness :
    (("t" : String) ≠ "" →
      probeResponse.metricsOutput
          ({ initCollectors with probeSuccess := some 0, probeDuration := some 1 })
        = probeResponse.metricsOutput
          ({ initCollectors with probeSuccess := some 0, probeDuration := some 1 }) ∧
      (probeResponse.metricsOutput
          ({ initCollectors with probeSuccess := some 0, probeDuration := some 1 })).statusCode
        = 200) ∧
    (("t" : String) = "" →
      probeResponse.metricsOutput
          ({ initCollectors with probeSuccess := some 0, probeDuration := some 1 })
        = probeResponse.badRequest "Target parameter missing or empty" ∧
      (probeResponse.metricsOutput
          ({ initCollectors with probeSuccess := some 0, probeDuration := some 1 })).statusCode
        = 400) :=
  probe_response_status initCollectors
    { initCollectors with probeSuccess := some 0, probeDuration := some 1 }
    "t" .netError 1
    (probeResponse.metricsOutput
      { initCollectors with probeSuccess := some 0, probeDuration := some 1 })
    rfl

/-- C10: evaluating the code at the failing input.  A reply with JSON result
`null` and no RPC error makes both object decoders return a nil entity
pointer together with a nil error — contradicting the claimed safety
property — and the orchestrator then dereferences the nil entity: the probe
cycle panics (no registry update, no response). -/
theorem null_result_nil_entity :
    apiGetLicenseDetails ⟨false, RPCResult.nullResult⟩ = (none, false) ∧
    apiServerStatus ⟨false, RPCResult.nullResult⟩ = (none, false) ∧
    probeHandler initCollectors "t"
      (.replies [⟨false, RPCResult.intResult 5⟩, ⟨false, RPCResult.corruptResult⟩,
        ⟨false, RPCResult.nullResult⟩]) 1 = none :=
  ⟨rfl, rfl, rfl⟩

end OpenOTP
